import Mathlib

/-
Verification of the trading governor's core components, shallowly embedded
from the repository's Python source:

  * src/risk.py               — FrequencyGuard, RiskManager
  * src/trade_execution.py    — TradeExecution
  * src/position_tracker.py   — PositionTracker

Modelling conventions: Python floats become rationals, epoch seconds for the
risk manager become naturals (the day-boundary arithmetic is integral),
fallible constructors become Option, and Python truthiness tests on numbers
(`if x:` with x either None or a float) are rendered explicitly as
"present and nonzero".
-/

/-- Trade direction; the source passes the strings "long" and "short", with
every non-"long" value falling into the short branch. -/
inductive Direction where
  | long
  | short
deriving DecidableEq

/-- One OHLC candle. Only the fields the embedded functions read are kept
(the source also carries open/volume/timestamp, which these code paths never
touch). -/
structure Candle where
  high : ℚ
  low : ℚ
  close : ℚ
deriving DecidableEq

/- ------------------------------------------------------------------ -/
/-  FrequencyGuard (src/risk.py lines 18-38)                           -/
/- ------------------------------------------------------------------ -/

/-- State of `FrequencyGuard`. `cooldown_seconds` is `cooldown_minutes * 60`
as computed by `__init__`; `last_trades` holds open timestamps,
`last_close_time` the last close timestamp (None initially). -/
structure FrequencyGuard where
  max_trades_per_hour : ℕ
  cooldown_seconds : ℚ
  last_trades : List ℚ
  last_close_time : Option ℚ
deriving DecidableEq

/-- `FrequencyGuard.__init__`. -/
def FrequencyGuard.init (max_trades_per_hour : ℕ) (cooldown_minutes : ℚ) : FrequencyGuard :=
  { max_trades_per_hour := max_trades_per_hour
    cooldown_seconds := cooldown_minutes * 60
    last_trades := []
    last_close_time := none }

/-- `FrequencyGuard.allow_new_trade`, with `now` (Python `time.time()`) made
an explicit argument. Returns the decision together with the updated state
(the method mutates `self.last_trades`). The Python guard
`if self.last_close_time and ...` is truthiness: it fires only when
`last_close_time` is not None and nonzero. -/
def FrequencyGuard.allow_new_trade (now : ℚ) (g : FrequencyGuard) :
    Bool × FrequencyGuard :=
  let trades := g.last_trades.filter (fun t => now - t < 3600)
  let g' := { g with last_trades := trades }
  if trades.length ≥ g.max_trades_per_hour then
    (false, g')
  else
    match g.last_close_time with
    | some c => if c ≠ 0 ∧ now - c < g.cooldown_seconds then (false, g') else (true, g')
    | none => (true, g')

/-- `FrequencyGuard.record_open`. -/
def FrequencyGuard.record_open (now : ℚ) (g : FrequencyGuard) : FrequencyGuard :=
  { g with last_trades := g.last_trades ++ [now] }

/-- `FrequencyGuard.record_close`. -/
def FrequencyGuard.record_close (now : ℚ) (g : FrequencyGuard) : FrequencyGuard :=
  { g with last_close_time := some now }

/- ------------------------------------------------------------------ -/
/-  RiskManager (src/risk.py lines 49-128)                             -/
/- ------------------------------------------------------------------ -/

/-- The persisted risk state dictionary. Timestamps are epoch seconds. -/
structure RiskState where
  day_start_ts : ℕ
  day_pnl : ℚ
  consecutive_losses : ℕ
  paused_until : ℕ
  shutdown_until : ℕ
deriving DecidableEq

/-- The zeroed default state produced by `RiskManager._load` when the state
file is absent or unreadable. -/
def freshRiskState : RiskState :=
  { day_start_ts := 0
    day_pnl := 0
    consecutive_losses := 0
    paused_until := 0
    shutdown_until := 0 }

/-- Outcome of reading the persisted state file: `none` means the file does
not exist, `some none` means it exists but reading or JSON-parsing raised,
`some (some s)` is a successful read of state `s`. -/
def RiskManager.load (readResult : Option (Option RiskState)) : RiskState :=
  match readResult with
  | some (some s) => s
  | some none => freshRiskState
  | none => freshRiskState

/-- `RiskManager._midnight_utc_ts`: the source breaks `now` into a UTC
calendar date via `time.gmtime` and rebuilds the epoch timestamp of that
day's 00:00:00; on a UTC host this is `now` rounded down to a multiple of
86400 seconds. -/
def midnight_utc_ts (now : ℕ) : ℕ :=
  now - now % 86400

/-- `RiskManager.ensure_day_initialized`: if the stored `day_start_ts`
differs from the current UTC-midnight timestamp, reset `day_start_ts` to it
and `day_pnl` to 0 (then persist). -/
def ensure_day_initialized (now : ℕ) (s : RiskState) : RiskState :=
  if s.day_start_ts ≠ midnight_utc_ts now then
    { s with day_start_ts := midnight_utc_ts now, day_pnl := 0 }
  else
    s

/-- `RiskManager.is_paused`. -/
def RiskState.is_paused (now : ℕ) (s : RiskState) : Bool :=
  now < s.paused_until

/-- `RiskManager.is_shutdown`. -/
def RiskState.is_shutdown (now : ℕ) (s : RiskState) : Bool :=
  now < s.shutdown_until

/-- `RiskManager.pause_for`. -/
def pause_for (now : ℕ) (seconds : ℕ) (s : RiskState) : RiskState :=
  { s with paused_until := now + seconds }

/-- `RiskManager.shutdown_for`. -/
def shutdown_for (now : ℕ) (seconds : ℕ) (s : RiskState) : RiskState :=
  { s with shutdown_until := now + seconds }

/-- The dictionary returned by `RiskManager.on_trade_closed`. -/
structure TradeCloseResult where
  triggered_pause : Bool
  consecutive_losses : ℕ
  day_pnl : ℚ
deriving DecidableEq

/-- `RiskManager.on_trade_closed`: ensure the day is initialized, add `pnl`
to `day_pnl` (for a numeric `pnl` the Python `float(pnl or 0)` is `pnl`
itself), update the loss streak, then pause if the streak reached the
threshold. Returns the report dictionary and the updated state. -/
def on_trade_closed (now : ℕ) (pnl : ℚ) (pause_after_losses : ℕ)
    (pause_duration_sec : ℕ) (s : RiskState) : TradeCloseResult × RiskState :=
  let s1 := ensure_day_initialized now s
  let s2 := { s1 with
    day_pnl := s1.day_pnl + pnl
    consecutive_losses := if pnl < 0 then s1.consecutive_losses + 1 else 0 }
  if s2.consecutive_losses ≥ pause_after_losses then
    let s3 := pause_for now pause_duration_sec s2
    ({ triggered_pause := true
       consecutive_losses := s3.consecutive_losses
       day_pnl := s3.day_pnl }, s3)
  else
    ({ triggered_pause := false
       consecutive_losses := s2.consecutive_losses
       day_pnl := s2.day_pnl }, s2)

/-- `RiskManager.get_day_pnl`: ensure the day is initialized, then read
`day_pnl`; returns the value together with the (possibly reset) state. -/
def get_day_pnl (now : ℕ) (s : RiskState) : ℚ × RiskState :=
  let s' := ensure_day_initialized now s
  (s'.day_pnl, s')

/- ------------------------------------------------------------------ -/
/-  TradeExecution (src/trade_execution.py)                            -/
/- ------------------------------------------------------------------ -/

/-- Configuration held by a `TradeExecution` instance. The source field
`min_rr_ratio` is called `min_rr` here. -/
structure TradeExecution where
  entry_mode : String
  stop_atr_multiplier : ℚ
  min_rr : ℚ
  time_stop_candles : ℕ
  atr_period : ℕ
deriving DecidableEq

/-- The accepted entry modes of `TradeExecution.__init__`. -/
def valid_entry_modes : List String :=
  ["break_retest", "pullback", "limit_midpoint"]

/-- `TradeExecution.__init__`: raises ValueError for an unknown entry mode,
modelled as `none`; otherwise stores the configuration. -/
def TradeExecution.init (entry_mode : String) (stop_atr_multiplier : ℚ)
    (min_rr : ℚ) (time_stop_candles : ℕ) (atr_period : ℕ) :
    Option TradeExecution :=
  if entry_mode ∈ valid_entry_modes then
    some { entry_mode := entry_mode
           stop_atr_multiplier := stop_atr_multiplier
           min_rr := min_rr
           time_stop_candles := time_stop_candles
           atr_period := atr_period }
  else
    none

/-- True-range list continuation: given the previous bar `prev`, the true
range of each following bar is `max(high-low, |high-prev_close|,
|low-prev_close|)` (the loop body of `_calculate_current_atr`). -/
def trAux (prev : Candle) : List Candle → List ℚ
  | [] => []
  | c :: cs =>
    max (c.high - c.low) (max |c.high - prev.close| |c.low - prev.close|) :: trAux c cs

/-- True-range list of a candle list: the first bar's true range is
`high - low` (`tr[0]` in the source), later bars use `trAux`. -/
def trList : List Candle → List ℚ
  | [] => []
  | c :: cs => (c.high - c.low) :: trAux c cs

/-- `np.mean` of a list of rationals (the embedded code only applies it to
nonempty lists). -/
def listMean (l : List ℚ) : ℚ :=
  l.sum / (l.length : ℚ)

/-- `TradeExecution._calculate_current_atr`: slice the last
`atr_period + 1` candles, build the true-range array, and average its last
`atr_period` entries. The slices `candles[-period-1:]` and `tr[-period:]`
are rendered with `List.drop`, which matches Python for `period ≥ 1`. -/
def calculate_current_atr (atr_period : ℕ) (candles : List Candle) : ℚ :=
  let w := candles.drop (candles.length - (atr_period + 1))
  let tr := trList w
  listMean (tr.drop (tr.length - atr_period))

/-- `TradeExecution._calculate_break_retest_entry` (the candle list argument
is unused by the source body). -/
def calculate_break_retest_entry (direction : Direction)
    (fractal_level : Option ℚ) (current_price : ℚ) : ℚ :=
  match fractal_level with
  | none => current_price
  | some f =>
    match direction with
    | .long => f * 1.0005
    | .short => f * 0.9995

/-- `TradeExecution._calculate_pullback_entry`. -/
def calculate_pullback_entry (fractal_level : Option ℚ)
    (current_price : ℚ) : ℚ :=
  match fractal_level with
  | none => current_price
  | some f => f

/-- `TradeExecution._calculate_limit_entry`. -/
def calculate_limit_entry (fractal_level : Option ℚ)
    (current_price : ℚ) : ℚ :=
  match fractal_level with
  | none => current_price
  | some f => (current_price + f) / 2

/-- `TradeExecution._calculate_stop_loss`. -/
def calculate_stop_loss (cfg : TradeExecution) (entry_price : ℚ)
    (direction : Direction) (atr : ℚ) (invalidation_level : Option ℚ) : ℚ :=
  let stop_distance := atr * cfg.stop_atr_multiplier
  match direction with
  | .long =>
    let atr_stop := entry_price - stop_distance
    match invalidation_level with
    | some il => min atr_stop (il - atr * 0.2)
    | none => atr_stop
  | .short =>
    let atr_stop := entry_price + stop_distance
    match invalidation_level with
    | some il => max atr_stop (il + atr * 0.2)
    | none => atr_stop

/-- Rejection reasons of `calculate_entry_stop_target` (the source carries
formatted message strings; only their identity matters here). -/
inductive PlanReason where
  | insufficientData
  | riskNonpositive
  | belowMinRR
deriving DecidableEq

/-- The dictionary returned by `calculate_entry_stop_target`. When
`valid = false` the source dict carries only a reason; the numeric fields
are defaulted to 0 in that case. The source field `rr_ratio` is called
`rr` here. -/
structure ExecPlan where
  valid : Bool
  reason : Option PlanReason := none
  entry_price : ℚ := 0
  stop_loss : ℚ := 0
  target : ℚ := 0
  risk : ℚ := 0
  reward : ℚ := 0
  rr : ℚ := 0
  atr : ℚ := 0
deriving DecidableEq

/-- `candles[-1]['close']` (only evaluated when the list is nonempty). -/
def lastClose (candles : List Candle) : ℚ :=
  match candles.getLast? with
  | some c => c.close
  | none => 0

/-- `TradeExecution.calculate_entry_stop_target`. -/
def calculate_entry_stop_target (cfg : TradeExecution)
    (candles : List Candle) (direction : Direction)
    (fractal_level : Option ℚ) (invalidation_level : Option ℚ) : ExecPlan :=
  if candles.length < cfg.atr_period then
    { valid := false, reason := some PlanReason.insufficientData }
  else
    let current_price := lastClose candles
    let atr := calculate_current_atr cfg.atr_period candles
    let entry_price :=
      if cfg.entry_mode = "break_retest" then
        calculate_break_retest_entry direction fractal_level current_price
      else if cfg.entry_mode = "pullback" then
        calculate_pullback_entry fractal_level current_price
      else
        calculate_limit_entry fractal_level current_price
    let stop_loss := calculate_stop_loss cfg entry_price direction atr invalidation_level
    let risk :=
      match direction with
      | .long => entry_price - stop_loss
      | .short => stop_loss - entry_price
    let target :=
      match direction with
      | .long => entry_price + risk * cfg.min_rr
      | .short => entry_price - risk * cfg.min_rr
    if risk ≤ 0 then
      { valid := false, reason := some PlanReason.riskNonpositive }
    else
      let reward := |target - entry_price|
      let rr := reward / risk
      if rr < cfg.min_rr then
        { valid := false, reason := some PlanReason.belowMinRR }
      else
        { valid := true
          entry_price := entry_price
          stop_loss := stop_loss
          target := target
          risk := risk
          reward := reward
          rr := rr
          atr := atr }

/-- Exit kinds reported by `check_time_stop`. -/
inductive ExitType where
  | time_stop
deriving DecidableEq

/-- The dictionary returned by `check_time_stop` (the formatted reason
string is elided). -/
structure TimeStopResult where
  should_exit : Bool
  exit_type : Option ExitType
deriving DecidableEq

/-- `TradeExecution.check_time_stop`: once `candles_since_entry` reaches
`time_stop_candles`, exit if the absolute price change since entry is below
0.3%. The `entry_time`, `current_time` and `direction` arguments are unused
by the source body and dropped here. -/
def check_time_stop (cfg : TradeExecution) (entry_price : ℚ)
    (current_price : ℚ) (candles_since_entry : ℕ) : TimeStopResult :=
  if candles_since_entry ≥ cfg.time_stop_candles then
    if |current_price - entry_price| / entry_price < 0.003 then
      { should_exit := true, exit_type := some ExitType.time_stop }
    else
      { should_exit := false, exit_type := none }
  else
    { should_exit := false, exit_type := none }

/- ------------------------------------------------------------------ -/
/-  PositionTracker (src/position_tracker.py)                          -/
/- ------------------------------------------------------------------ -/

/-- State of `PositionTracker`. Sides are stored as `Direction` (the source
stores the strings "long"/"short" and only echoes them). -/
structure PositionTracker where
  max_candles_5m : ℕ
  position_entry_time : Option ℚ
  position_entry_candle_count : ℕ
  position_side : Option Direction
  position_entry_price : Option ℚ
deriving DecidableEq

/-- `PositionTracker.__init__`. -/
def PositionTracker.init (max_candles_5m : ℕ) : PositionTracker :=
  { max_candles_5m := max_candles_5m
    position_entry_time := none
    position_entry_candle_count := 0
    position_side := none
    position_entry_price := none }

/-- `PositionTracker.on_position_opened`. -/
def on_position_opened (side : Direction) (entry_price : ℚ)
    (timestamp : ℚ) (t : PositionTracker) : PositionTracker :=
  { t with
    position_entry_time := some timestamp
    position_entry_candle_count := 0
    position_side := some side
    position_entry_price := some entry_price }

/-- `PositionTracker.on_position_closed`. -/
def on_position_closed (t : PositionTracker) : PositionTracker :=
  { t with
    position_entry_time := none
    position_entry_candle_count := 0
    position_side := none
    position_entry_price := none }

/-- Python truthiness of an optional float: `None` and `0.0` are falsy. -/
def optTruthy (x : Option ℚ) : Bool :=
  match x with
  | none => false
  | some v => v ≠ 0

/-- The exit recommendation dictionary returned by
`PositionTracker.on_new_candle` (its `should_exit` key is always `True` and
the reason string is elided). -/
structure TrackerExit where
  candles_held : ℕ
  price_change_pct : ℚ
deriving DecidableEq

/-- `PositionTracker.on_new_candle`: a no-op returning `none` while
`position_entry_time` is falsy (`if not self.position_entry_time`);
otherwise increments the candle count and, once it reaches
`max_candles_5m`, returns an exit recommendation whose price-change
percentage falls back to 0 when `position_entry_price` is falsy
(`if self.position_entry_price`). Returns the recommendation and the
updated state. -/
def on_new_candle (candle : Candle) (t : PositionTracker) :
    Option TrackerExit × PositionTracker :=
  if ¬ optTruthy t.position_entry_time then
    (none, t)
  else
    let t' := { t with position_entry_candle_count := t.position_entry_candle_count + 1 }
    let current_price := candle.close
    if t'.position_entry_candle_count ≥ t'.max_candles_5m then
      let pct :=
        if optTruthy t'.position_entry_price then
          match t'.position_entry_price with
          | some p => |current_price - p| / p
          | none => 0
        else 0
      (some { candles_held := t'.position_entry_candle_count
              price_change_pct := pct }, t')
    else
      (none, t')

/- ------------------------------------------------------------------ -/
/-  Spec-side definition and shared concrete configuration             -/
/- ------------------------------------------------------------------ -/

/-- The ATR formula as the specification words it, for comparison with
`calculate_current_atr`: per-bar true range over the full candle list
(first bar `high - low` since no previous close exists, later bars
`max(high-low, |high-prev_close|, |low-prev_close|)`), ATR = simple mean of
the true range over the lookback period, i.e. over the last `atr_period`
bars. -/
def specATR (atr_period : ℕ) (candles : List Candle) : ℚ :=
  let tr := trList candles
  listMean (tr.drop (tr.length - atr_period))

/-- The source's default configuration: entry mode "break_retest",
`stop_atr_multiplier = 1.5`, `min_rr_ratio = 2.0`, `time_stop_candles = 8`,
`atr_period = 14`. -/
def cfgDefault : TradeExecution :=
  { entry_mode := "break_retest"
    stop_atr_multiplier := 1.5
    min_rr := 2
    time_stop_candles := 8
    atr_period := 14 }

/- ------------------------------------------------------------------ -/
/-  Helper lemmas                                                      -/
/- ------------------------------------------------------------------ -/

/-- A consultation on an already-initialized day leaves the state unchanged. -/
theorem ensure_day_initialized_of_eq {s : RiskState} {now : ℕ}
    (h : s.day_start_ts = midnight_utc_ts now) :
    ensure_day_initialized now s = s := by
  simp [ensure_day_initialized, h]

/-- Any sequence of same-day consultations on an initialized state is the
identity. -/
theorem foldl_ensure_same_day (d : ℕ) (ts : List ℕ) :
    ∀ s : RiskState, s.day_start_ts = d →
      (∀ u ∈ ts, midnight_utc_ts u = d) →
      List.foldl (fun st u => ensure_day_initialized u st) s ts = s := by
  induction ts with
  | nil => intro s _ _; rfl
  | cons u rest ih =>
    intro s hs hm
    have h1 : ensure_day_initialized u s = s :=
      ensure_day_initialized_of_eq (hs.trans (hm u (by simp)).symm)
    simp only [List.foldl_cons, h1]
    exact ih s hs fun v hv => hm v (by simp [hv])

/-- `ensure_day_initialized` only touches `day_start_ts` and `day_pnl`. -/
theorem ensure_day_initialized_consecutive (now : ℕ) (s : RiskState) :
    (ensure_day_initialized now s).consecutive_losses = s.consecutive_losses := by
  unfold ensure_day_initialized
  split <;> rfl

/-- `ensure_day_initialized` leaves `paused_until` unchanged. -/
theorem ensure_day_initialized_paused (now : ℕ) (s : RiskState) :
    (ensure_day_initialized now s).paused_until = s.paused_until := by
  unfold ensure_day_initialized
  split <;> rfl

/-- Loss-streak field of the state after `on_trade_closed`. -/
theorem on_trade_closed_consecutive (now : ℕ) (pnl : ℚ) (pa d : ℕ) (s : RiskState) :
    ((on_trade_closed now pnl pa d s).2).consecutive_losses
      = if pnl < 0 then s.consecutive_losses + 1 else 0 := by
  simp only [on_trade_closed, pause_for]
  split <;> rename_i h1 <;> split <;> rename_i h2 <;>
    simp_all [ensure_day_initialized_consecutive]

/-- Daily-PnL field of the state after `on_trade_closed`. -/
theorem on_trade_closed_day_pnl (now : ℕ) (pnl : ℚ) (pa d : ℕ) (s : RiskState) :
    ((on_trade_closed now pnl pa d s).2).day_pnl
      = (ensure_day_initialized now s).day_pnl + pnl := by
  simp only [on_trade_closed, pause_for]
  split <;> split <;> rfl

/-- The `triggered_pause` flag reported by `on_trade_closed`. -/
theorem on_trade_closed_triggered (now : ℕ) (pnl : ℚ) (pa d : ℕ) (s : RiskState) :
    ((on_trade_closed now pnl pa d s).1).triggered_pause
      = decide (pa ≤ (if pnl < 0 then s.consecutive_losses + 1 else 0)) := by
  simp only [on_trade_closed, pause_for]
  split <;> rename_i h1 <;> split <;> rename_i h2 <;>
    simp_all [ensure_day_initialized_consecutive]

/-- `paused_until` after `on_trade_closed`. -/
theorem on_trade_closed_paused_until (now : ℕ) (pnl : ℚ) (pa d : ℕ) (s : RiskState) :
    ((on_trade_closed now pnl pa d s).2).paused_until
      = if pa ≤ (if pnl < 0 then s.consecutive_losses + 1 else 0)
        then now + d else s.paused_until := by
  simp only [on_trade_closed, pause_for]
  split <;> rename_i h1 <;> split <;> rename_i h2 <;>
    simp_all [ensure_day_initialized_consecutive, ensure_day_initialized_paused]
  rw [if_neg (by omega)]

/- ------------------------------------------------------------------ -/
/-  C1                                                                 -/
/- ------------------------------------------------------------------ -/

/-- Claim C1: `day_pnl` is reset to 0 exactly once per UTC calendar day, on
the first consultation after the UTC-midnight boundary is crossed, and is
neither skipped nor reset twice for the same day; after crossing the
boundary and before any trade closes, `get_day_pnl` returns 0 regardless of
the previous day's value. Conjuncts: the first consultation after a crossing
resets `day_pnl` to 0 and stamps the new day; `get_day_pnl` then reads 0;
every further same-day consultation (directly or inside
`on_trade_closed`/`get_day_pnl`) leaves the state untouched; and a
consultation on an already-stamped day is always the identity (no double
reset, no skipped reset). -/
theorem c1_day_pnl_reset_once (s : RiskState) (t : ℕ) (ts : List ℕ)
    (hcross : s.day_start_ts ≠ midnight_utc_ts t)
    (hsame : ∀ u ∈ ts, midnight_utc_ts u = midnight_utc_ts t) :
    (ensure_day_initialized t s).day_pnl = 0 ∧
    (ensure_day_initialized t s).day_start_ts = midnight_utc_ts t ∧
    (get_day_pnl t s).1 = 0 ∧
    List.foldl (fun st u => ensure_day_initialized u st)
        (ensure_day_initialized t s) ts = ensure_day_initialized t s ∧
    (∀ (s' : RiskState) (u : ℕ), s'.day_start_ts = midnight_utc_ts u →
        ensure_day_initialized u s' = s') := by
  have h1 : ensure_day_initialized t s
      = { s with day_start_ts := midnight_utc_ts t, day_pnl := 0 } := by
    simp [ensure_day_initialized, hcross]
  refine ⟨by rw [h1], by rw [h1], ?_, ?_, ?_⟩
  · show (ensure_day_initialized t s).day_pnl = 0
    rw [h1]
  · exact foldl_ensure_same_day (midnight_utc_ts t) ts _ (by rw [h1]) hsame
  · exact fun s' u h => ensure_day_initialized_of_eq h

/-- Witness for C1 at a concrete crossing: a state stamped for day 0 holding
`day_pnl = 5`, consulted at second 200000 of the epoch (day 2) and again at
second 210000 of the same day. -/
theorem c1_day_pnl_reset_once_witness :
    (get_day_pnl 200000 ⟨0, 5, 0, 0, 0⟩).1 = 0 := by
  have h := c1_day_pnl_reset_once ⟨0, 5, 0, 0, 0⟩ 200000 [210000]
    (by decide) (by decide)
  exact h.2.2.1

/- ------------------------------------------------------------------ -/
/-  C2                                                                 -/
/- ------------------------------------------------------------------ -/

/-- Claim C2: every `on_trade_closed(pnl, pause_after_losses,
pause_duration)` call adds `pnl` to `day_pnl`, increments
`consecutive_losses` on `pnl < 0` and resets it to 0 otherwise, reports
`triggered_pause` exactly when the updated streak reaches
`pause_after_losses`, and on trigger sets `paused_until = now +
pause_duration`; with `pause_after_losses = 3`, three consecutive losing
closes make `is_paused` true immediately after the third call with
`paused_until = now + pause_duration`, while one intervening non-negative
close resets the streak so the next two losses alone fire no pause. -/
theorem c2_on_trade_closed_contract :
    (∀ (now : ℕ) (pnl : ℚ) (pa d : ℕ) (s : RiskState),
      ((on_trade_closed now pnl pa d s).2).day_pnl
          = (ensure_day_initialized now s).day_pnl + pnl ∧
      ((on_trade_closed now pnl pa d s).2).consecutive_losses
          = (if pnl < 0 then s.consecutive_losses + 1 else 0) ∧
      ((on_trade_closed now pnl pa d s).1).triggered_pause
          = decide (pa ≤ ((on_trade_closed now pnl pa d s).2).consecutive_losses) ∧
      (((on_trade_closed now pnl pa d s).1).triggered_pause = true →
          ((on_trade_closed now pnl pa d s).2).paused_until = now + d)) ∧
    (∀ (s : RiskState) (n1 n2 n3 d : ℕ) (p1 p2 p3 : ℚ),
      s.consecutive_losses = 0 → p1 < 0 → p2 < 0 → p3 < 0 → 0 < d →
      ((on_trade_closed n1 p1 3 d s).1).triggered_pause = false ∧
      ((on_trade_closed n2 p2 3 d
          (on_trade_closed n1 p1 3 d s).2).1).triggered_pause = false ∧
      ((on_trade_closed n3 p3 3 d (on_trade_closed n2 p2 3 d
          (on_trade_closed n1 p1 3 d s).2).2).1).triggered_pause = true ∧
      ((on_trade_closed n3 p3 3 d (on_trade_closed n2 p2 3 d
          (on_trade_closed n1 p1 3 d s).2).2).2).paused_until = n3 + d ∧
      RiskState.is_paused n3 ((on_trade_closed n3 p3 3 d (on_trade_closed n2 p2 3 d
          (on_trade_closed n1 p1 3 d s).2).2).2) = true) ∧
    (∀ (s : RiskState) (n1 n2 n3 n4 d : ℕ) (p1 w p3 p4 : ℚ),
      s.consecutive_losses = 0 → p1 < 0 → 0 ≤ w → p3 < 0 → p4 < 0 →
      ((on_trade_closed n2 w 3 d
          (on_trade_closed n1 p1 3 d s).2).1).triggered_pause = false ∧
      ((on_trade_closed n2 w 3 d
          (on_trade_closed n1 p1 3 d s).2).2).consecutive_losses = 0 ∧
      ((on_trade_closed n3 p3 3 d (on_trade_closed n2 w 3 d
          (on_trade_closed n1 p1 3 d s).2).2).1).triggered_pause = false ∧
      ((on_trade_closed n4 p4 3 d (on_trade_closed n3 p3 3 d (on_trade_closed n2 w 3 d
          (on_trade_closed n1 p1 3 d s).2).2).2).1).triggered_pause = false ∧
      ((on_trade_closed n4 p4 3 d (on_trade_closed n3 p3 3 d (on_trade_closed n2 w 3 d
          (on_trade_closed n1 p1 3 d s).2).2).2).2).consecutive_losses = 2) := by
  refine ⟨?_, ?_, ?_⟩
  · intro now pnl pa d s
    refine ⟨on_trade_closed_day_pnl now pnl pa d s, on_trade_closed_consecutive now pnl pa d s, ?_, ?_⟩
    · rw [on_trade_closed_triggered, on_trade_closed_consecutive]
    · intro h
      rw [on_trade_closed_triggered] at h
      rw [on_trade_closed_paused_until, if_pos (of_decide_eq_true h)]
  · intro s n1 n2 n3 d p1 p2 p3 h0 h1 h2 h3 hd
    have e1 : ((on_trade_closed n1 p1 3 d s).2).consecutive_losses = 1 := by
      rw [on_trade_closed_consecutive, if_pos h1, h0]
    have e2 : ((on_trade_closed n2 p2 3 d
        (on_trade_closed n1 p1 3 d s).2).2).consecutive_losses = 2 := by
      rw [on_trade_closed_consecutive, if_pos h2, e1]
    have pu3 : ((on_trade_closed n3 p3 3 d (on_trade_closed n2 p2 3 d
        (on_trade_closed n1 p1 3 d s).2).2).2).paused_until = n3 + d := by
      rw [on_trade_closed_paused_until, if_pos h3, e2]
      norm_num
    refine ⟨?_, ?_, ?_, pu3, ?_⟩
    · rw [on_trade_closed_triggered, if_pos h1, h0]; decide
    · rw [on_trade_closed_triggered, if_pos h2, e1]; decide
    · rw [on_trade_closed_triggered, if_pos h3, e2]; decide
    · simp only [RiskState.is_paused, pu3]
      simp only [decide_eq_true_eq]
      omega
  · intro s n1 n2 n3 n4 d p1 w p3 p4 h0 h1 hw h3 h4
    have e1 : ((on_trade_closed n1 p1 3 d s).2).consecutive_losses = 1 := by
      rw [on_trade_closed_consecutive, if_pos h1, h0]
    have e2 : ((on_trade_closed n2 w 3 d
        (on_trade_closed n1 p1 3 d s).2).2).consecutive_losses = 0 := by
      rw [on_trade_closed_consecutive, if_neg (not_lt.mpr hw)]
    have e3 : ((on_trade_closed n3 p3 3 d (on_trade_closed n2 w 3 d
        (on_trade_closed n1 p1 3 d s).2).2).2).consecutive_losses = 1 := by
      rw [on_trade_closed_consecutive, if_pos h3, e2]
    refine ⟨?_, e2, ?_, ?_, ?_⟩
    · rw [on_trade_closed_triggered, if_neg (not_lt.mpr hw)]; decide
    · rw [on_trade_closed_triggered, if_pos h3, e2]; decide
    · rw [on_trade_closed_triggered, if_pos h4, e3]; decide
    · rw [on_trade_closed_consecutive, if_pos h4, e3]

/-- Witness for C2: a fresh state, three closes of −1 at seconds 1000, 2000
and 3000 with a one-hour pause duration, and the interrupted chain
−1, +1, −1, −1 from the same fresh state. -/
theorem c2_on_trade_closed_contract_witness :
    (((on_trade_closed 3000 (-1) 3 3600 (on_trade_closed 2000 (-1) 3 3600
        (on_trade_closed 1000 (-1) 3 3600 freshRiskState).2).2).1).triggered_pause = true ∧
      RiskState.is_paused 3000 ((on_trade_closed 3000 (-1) 3 3600 (on_trade_closed 2000 (-1) 3 3600
        (on_trade_closed 1000 (-1) 3 3600 freshRiskState).2).2).2) = true) ∧
    ((on_trade_closed 4000 (-1) 3 3600 (on_trade_closed 3000 (-1) 3 3600 (on_trade_closed 2000 1 3 3600
        (on_trade_closed 1000 (-1) 3 3600 freshRiskState).2).2).2).1).triggered_pause = false := by
  have h2 := c2_on_trade_closed_contract.2.1 freshRiskState 1000 2000 3000 3600
    (-1) (-1) (-1) rfl (by norm_num) (by norm_num) (by norm_num) (by norm_num)
  have h3 := c2_on_trade_closed_contract.2.2 freshRiskState 1000 2000 3000 4000 3600
    (-1) 1 (-1) (-1) rfl (by norm_num) (by norm_num) (by norm_num) (by norm_num)
  exact ⟨⟨h2.2.2.1, h2.2.2.2.2⟩, h3.2.2.2.1⟩

/- ------------------------------------------------------------------ -/
/-  C3                                                                 -/
/- ------------------------------------------------------------------ -/

/-- Counterexample to C3 as stated: a guard whose `last_close_time` is set
to 0 (reachable by `record_close` at epoch second 0) with a 600-second
cooldown, consulted at time 100. Every claim premise holds — the close time
is set, `100 - 0 < 600` is inside the cooldown window, and the frequency
count is below the cap — yet `allow_new_trade` returns `true`, because the
source's truthiness test `if self.last_close_time and ...` treats the float
`0.0` as unset. -/
theorem c3_counterexample :
    (({ max_trades_per_hour := 1, cooldown_seconds := 600, last_trades := [],
        last_close_time := some 0 } : FrequencyGuard).last_close_time = some 0 ∧
      (100 : ℚ) - 0 < 600 ∧
      ([] : List ℚ).length < 1) ∧
    (FrequencyGuard.allow_new_trade 100
      { max_trades_per_hour := 1, cooldown_seconds := 600, last_trades := [],
        last_close_time := some 0 }).1 = true := by
  refine ⟨⟨rfl, by norm_num, by norm_num⟩, ?_⟩
  simp [FrequencyGuard.allow_new_trade]

/-- Claim C3 (amended: the cooldown refusal requires `last_close_time` to
be set *and nonzero*, since the source tests it for Python truthiness):
`allow_new_trade` discards the open timestamps aged 3600 seconds or more,
returns true exactly when the remaining count is below
`max_trades_per_hour` and no nonzero recorded close lies within the
cooldown window; and with a 600-second cooldown, after a close recorded at
a nonzero `t0` it returns false at every `t` in `(t0, t0 + 600)`. -/
theorem c3_allow_new_trade :
    (∀ (g : FrequencyGuard) (now : ℚ),
      ((FrequencyGuard.allow_new_trade now g).2).last_trades
          = g.last_trades.filter (fun t => now - t < 3600) ∧
      ((FrequencyGuard.allow_new_trade now g).1 = true ↔
        ((g.last_trades.filter (fun t => now - t < 3600)).length < g.max_trades_per_hour ∧
          ∀ c : ℚ, g.last_close_time = some c → c ≠ 0 →
            g.cooldown_seconds ≤ now - c))) ∧
    (∀ (g : FrequencyGuard) (t0 t : ℚ), g.cooldown_seconds = 600 → t0 ≠ 0 →
      t0 < t → t < t0 + 600 →
      (FrequencyGuard.allow_new_trade t (FrequencyGuard.record_close t0 g)).1 = false) := by
  constructor
  · intro g now
    constructor
    · simp only [FrequencyGuard.allow_new_trade]
      cases hl : g.last_close_time with
      | none =>
        simp only [hl]
        split <;> rfl
      | some c =>
        simp only [hl]
        split
        · rfl
        · split <;> rfl
    · simp only [FrequencyGuard.allow_new_trade]
      cases hl : g.last_close_time with
      | none =>
        simp only [hl]
        split <;> rename_i h
        · constructor
          · intro hfalse; exact Bool.noConfusion hfalse
          · rintro ⟨hlt, -⟩; exact absurd hlt (not_lt.mpr h)
        · constructor
          · intro _
            refine ⟨not_le.mp h, ?_⟩
            intro c hc; exact Option.noConfusion hc
          · intro _; rfl
      | some c =>
        simp only [hl]
        split <;> rename_i h
        · constructor
          · intro hfalse; exact Bool.noConfusion hfalse
          · rintro ⟨hlt, -⟩; exact absurd hlt (not_lt.mpr h)
        · split <;> rename_i h2
          · constructor
            · intro hfalse; exact Bool.noConfusion hfalse
            · rintro ⟨-, hall⟩
              exact absurd (hall c rfl h2.1) (not_le.mpr h2.2)
          · constructor
            · intro _
              refine ⟨not_le.mp h, ?_⟩
              intro c' hc' hc'0
              injection hc' with hcc
              subst hcc
              rcases not_and_or.mp h2 with h3 | h3
              · exact absurd hc'0 h3
              · exact not_lt.mp h3
            · intro _; rfl
  · intro g t0 t hcd ht0 h1 h2
    simp only [FrequencyGuard.allow_new_trade, FrequencyGuard.record_close]
    split
    · rfl
    · rw [if_pos ⟨ht0, by rw [hcd]; linarith⟩]

/-- Witness for C3: `FrequencyGuard(max_trades_per_hour=1,
cooldown_minutes=10)` with a close recorded at second 50, consulted at
second 100, refuses the trade. -/
theorem c3_allow_new_trade_witness :
    (FrequencyGuard.allow_new_trade 100
      (FrequencyGuard.record_close 50 (FrequencyGuard.init 1 10))).1 = false :=
  c3_allow_new_trade.2 (FrequencyGuard.init 1 10) 50 100 (by norm_num [FrequencyGuard.init])
    (by norm_num) (by norm_num) (by norm_num)

/- ------------------------------------------------------------------ -/
/-  C4                                                                 -/
/- ------------------------------------------------------------------ -/

/-- Claim C4: `check_time_stop` recommends an exit exactly when
`candles_since_entry >= time_stop_candles` and the absolute price change
since entry, `|current - entry| / entry`, is below 0.3%; with
`time_stop_candles = 8`, a position that moved 0.1% after 8 elapsed candles
gets an exit recommendation, and at 7 elapsed candles it gets none
regardless of price movement. -/
theorem c4_check_time_stop :
    (∀ (cfg : TradeExecution) (ep cp : ℚ) (n : ℕ),
      ((check_time_stop cfg ep cp n).should_exit = true ↔
        (cfg.time_stop_candles ≤ n ∧ |cp - ep| / ep < 0.003))) ∧
    (∀ (cfg : TradeExecution) (ep : ℚ), cfg.time_stop_candles = 8 → 0 < ep →
      (check_time_stop cfg ep (ep * (1 + 1 / 1000)) 8).should_exit = true) ∧
    (∀ (cfg : TradeExecution) (ep cp : ℚ), cfg.time_stop_candles = 8 →
      (check_time_stop cfg ep cp 7).should_exit = false) := by
  refine ⟨?_, ?_, ?_⟩
  · intro cfg ep cp n
    unfold check_time_stop
    split <;> rename_i h1
    · split <;> rename_i h2
      · simp only [true_iff]
        exact ⟨h1, h2⟩
      · constructor
        · intro hfalse; exact Bool.noConfusion hfalse
        · rintro ⟨-, h⟩; exact absurd h h2
    · constructor
      · intro hfalse; exact Bool.noConfusion hfalse
      · rintro ⟨h, -⟩; exact absurd h h1
  · intro cfg ep h8 hep
    unfold check_time_stop
    rw [h8, if_pos (le_refl 8), if_pos ?_]
    have h1 : ep * (1 + 1 / 1000) - ep = ep / 1000 := by ring
    have h2 : ep / 1000 / ep = 1 / 1000 := by
      field_simp
      ring
    rw [h1, abs_of_pos (by positivity), h2]
    norm_num
  · intro cfg ep cp h8 
    unfold check_time_stop
    rw [h8, if_neg (by omega)]

/-- Witness for C4 at the default configuration with entry price 1000. -/
theorem c4_check_time_stop_witness :
    (check_time_stop cfgDefault 1000 (1000 * (1 + 1 / 1000)) 8).should_exit = true ∧
    (check_time_stop cfgDefault 1000 900 7).should_exit = false :=
  ⟨c4_check_time_stop.2.1 cfgDefault 1000 rfl (by norm_num),
   c4_check_time_stop.2.2 cfgDefault 1000 900 rfl⟩

/- ------------------------------------------------------------------ -/
/-  C5                                                                 -/
/- ------------------------------------------------------------------ -/

/-- Claim C5: the stop is placed `atr * stop_atr_multiplier` beyond entry in
the adverse direction (below entry for long, above for short), and when an
invalidation level is supplied the result is whichever of the ATR-stop and
the invalidation-stop (`invalidation_level ∓ atr * 0.2`) lies further from
entry, so the stop is never tighter than either constraint. -/
theorem c5_calculate_stop_loss (cfg : TradeExecution) (e atr il : ℚ)
    (hatr : 0 ≤ atr) (hmult : 0 ≤ cfg.stop_atr_multiplier) :
    (calculate_stop_loss cfg e Direction.long atr none
        = e - atr * cfg.stop_atr_multiplier ∧
      calculate_stop_loss cfg e Direction.long atr none ≤ e) ∧
    (calculate_stop_loss cfg e Direction.short atr none
        = e + atr * cfg.stop_atr_multiplier ∧
      e ≤ calculate_stop_loss cfg e Direction.short atr none) ∧
    (calculate_stop_loss cfg e Direction.long atr (some il)
        = min (e - atr * cfg.stop_atr_multiplier) (il - atr * 0.2) ∧
      calculate_stop_loss cfg e Direction.long atr (some il)
        ≤ e - atr * cfg.stop_atr_multiplier ∧
      calculate_stop_loss cfg e Direction.long atr (some il) ≤ il - atr * 0.2) ∧
    (calculate_stop_loss cfg e Direction.short atr (some il)
        = max (e + atr * cfg.stop_atr_multiplier) (il + atr * 0.2) ∧
      e + atr * cfg.stop_atr_multiplier
        ≤ calculate_stop_loss cfg e Direction.short atr (some il) ∧
      il + atr * 0.2 ≤ calculate_stop_loss cfg e Direction.short atr (some il)) := by
  have hd : 0 ≤ atr * cfg.stop_atr_multiplier := mul_nonneg hatr hmult
  refine ⟨⟨rfl, by simp [calculate_stop_loss]; linarith⟩,
          ⟨rfl, by simp [calculate_stop_loss]; linarith⟩, ⟨rfl, ?_, ?_⟩, ⟨rfl, ?_, ?_⟩⟩
  · exact min_le_left _ _
  · exact min_le_right _ _
  · exact le_max_left _ _
  · exact le_max_right _ _

/-- Witness for C5 at entry 100, ATR 10, invalidation level 97, default
multiplier 1.5. -/
theorem c5_calculate_stop_loss_witness :
    calculate_stop_loss cfgDefault 100 Direction.long 10 none ≤ 100 ∧
    calculate_stop_loss cfgDefault 100 Direction.long 10 (some 97) ≤ 97 - 10 * 0.2 :=
  ⟨(c5_calculate_stop_loss cfgDefault 100 10 97 (by norm_num)
      (by norm_num [cfgDefault])).1.2,
   (c5_calculate_stop_loss cfgDefault 100 10 97 (by norm_num)
      (by norm_num [cfgDefault])).2.2.1.2.2⟩

/- ------------------------------------------------------------------ -/
/-  C6                                                                 -/
/- ------------------------------------------------------------------ -/

/-- `trAux` produces one true range per candle. -/
theorem trAux_length (prev : Candle) (l : List Candle) :
    (trAux prev l).length = l.length := by
  induction l generalizing prev with
  | nil => rfl
  | cons c cs ih => simp [trAux, ih]

/-- `trList` produces one true range per candle. -/
theorem trList_length (l : List Candle) : (trList l).length = l.length := by
  cases l with
  | nil => rfl
  | cons c cs => simp [trList, trAux_length]

/-- Past its head, `trAux` does not depend on the seed bar, and agrees with
`trList`. -/
theorem trList_drop_succ_eq_trAux (prev : Candle) (l : List Candle) (k : ℕ) :
    (trList l).drop (k + 1) = (trAux prev l).drop (k + 1) := by
  cases l with
  | nil => rfl
  | cons c cs => rfl

/-- Dropping `k + 1` true ranges of a list is the same as dropping the first
true range of the list's `k`-suffix: every retained bar sees the same
previous close either way. -/
theorem trList_drop (l : List Candle) (k : ℕ) :
    (trList l).drop (k + 1) = (trList (l.drop k)).drop 1 := by
  induction k generalizing l with
  | zero => simp
  | succ k ih =>
    cases l with
    | nil => rfl
    | cons c cs =>
      calc (trList (c :: cs)).drop (k + 1 + 1)
          = (trAux c cs).drop (k + 1) := rfl
        _ = (trList cs).drop (k + 1) := (trList_drop_succ_eq_trAux c cs k).symm
        _ = (trList (cs.drop k)).drop 1 := ih cs

/-- Claim C6: the plan computation rejects with `valid = false` when fewer
candles than `atr_period` are available; otherwise the ATR it uses equals
the simple mean over the lookback period of the per-bar true range
`max(high-low, |high-prev_close|, |low-prev_close|)`, the first bar's true
range being `high-low` only (no previous close exists). -/
theorem c6_plan_atr :
    (∀ (cfg : TradeExecution) (candles : List Candle) (d : Direction)
        (fl il : Option ℚ),
      candles.length < cfg.atr_period →
      (calculate_entry_stop_target cfg candles d fl il).valid = false) ∧
    (∀ (period : ℕ) (candles : List Candle), 0 < period →
      period ≤ candles.length →
      calculate_current_atr period candles = specATR period candles) := by
  constructor
  · intro cfg candles d fl il hlen
    unfold calculate_entry_stop_target
    rw [if_pos hlen]
  · intro period candles hpos hlen
    simp only [calculate_current_atr, specATR, trList_length]
    by_cases h : candles.length ≤ period + 1
    · rw [Nat.sub_eq_zero_of_le h, List.drop_zero]
    · push_neg at h
      have h1 : (candles.drop (candles.length - (period + 1))).length
          = period + 1 := by
        rw [List.length_drop]
        omega
      rw [h1]
      have h3 : candles.length - period
          = (candles.length - (period + 1)) + 1 := by omega
      rw [h3, trList_drop candles (candles.length - (period + 1))]
      have h2 : period + 1 - period = 1 := by omega
      rw [h2]

/-- Witness for C6: the empty list is rejected at the default 14-period
configuration, and on a three-candle list with a 2-period ATR the code's
windowed computation agrees with the spec formula. -/
theorem c6_plan_atr_witness :
    (calculate_entry_stop_target cfgDefault [] Direction.long none none).valid = false ∧
    calculate_current_atr 2 [⟨10, 8, 9⟩, ⟨12, 9, 11⟩, ⟨13, 10, 12⟩]
      = specATR 2 [⟨10, 8, 9⟩, ⟨12, 9, 11⟩, ⟨13, 10, 12⟩] :=
  ⟨c6_plan_atr.1 cfgDefault [] Direction.long none none (by norm_num [cfgDefault]),
   c6_plan_atr.2 2 [⟨10, 8, 9⟩, ⟨12, 9, 11⟩, ⟨13, 10, 12⟩] (by norm_num) (by norm_num)⟩

/- ------------------------------------------------------------------ -/
/-  C7                                                                 -/
/- ------------------------------------------------------------------ -/

/-- True ranges along a constant-candle run with range 10: every bar after
the seed has true range `max 10 (max 5 5) = 10`. -/
theorem trAux_replicate (E : ℚ) (n : ℕ) :
    trAux ⟨E + 5, E - 5, E⟩ (List.replicate n ⟨E + 5, E - 5, E⟩)
      = List.replicate n 10 := by
  induction n with
  | zero => rfl
  | succ n ih =>
    rw [List.replicate_succ, List.replicate_succ]
    simp only [trAux, ih, List.cons.injEq, and_true]
    have ha : E + 5 - (E - 5) = (10 : ℚ) := by ring
    have hb : E + 5 - E = (5 : ℚ) := by ring
    have hc : E - 5 - E = (-5 : ℚ) := by ring
    rw [ha, hb, hc]
    norm_num

/-- True-range list of a nonempty constant-candle run with range 10. -/
theorem trList_replicate (E : ℚ) (n : ℕ) :
    trList (List.replicate (n + 1) ⟨E + 5, E - 5, E⟩)
      = List.replicate (n + 1) 10 := by
  rw [List.replicate_succ, List.replicate_succ]
  simp only [trList, trAux_replicate, List.cons.injEq, and_true]
  ring

/-- `getLast?` of a nonempty constant run. -/
theorem getLast?_replicate_succ (c : Candle) (n : ℕ) :
    (List.replicate (n + 1) c).getLast? = some c := by
  induction n with
  | zero => rfl
  | succ n ih =>
    rw [List.replicate_succ, List.replicate_succ, List.getLast?_cons_cons,
      ← List.replicate_succ]
    exact ih

/-- The ATR of 14 candles that all have range 10 and close mid-bar is 10. -/
theorem atr_replicate (E : ℚ) :
    calculate_current_atr 14 (List.replicate 14 ⟨E + 5, E - 5, E⟩) = 10 := by
  have h := trList_replicate E 13
  norm_num at h
  simp only [calculate_current_atr, List.length_replicate]
  norm_num [h, listMean, List.sum_replicate, List.length_replicate]

/-- Claim C7: every plan returned with `valid = true` has `rr_ratio >=
min_rr_ratio` and strictly positive risk; and for a long plan with no
invalidation and ATR 10 under the default configuration
(`stop_atr_multiplier = 1.5`, `min_rr_ratio = 2.0`), the values are exact:
`stop_loss = entry - 15`, `target = entry + 30`, `risk = 15`,
`reward = 30`, `rr_ratio = 2` exactly. -/
theorem c7_plan_valid :
    (∀ (cfg : TradeExecution) (candles : List Candle) (d : Direction)
        (fl il : Option ℚ),
      (calculate_entry_stop_target cfg candles d fl il).valid = true →
        cfg.min_rr ≤ (calculate_entry_stop_target cfg candles d fl il).rr ∧
        0 < (calculate_entry_stop_target cfg candles d fl il).risk) ∧
    (∀ E : ℚ,
      calculate_entry_stop_target cfgDefault
          (List.replicate 14 ⟨E + 5, E - 5, E⟩) Direction.long none none
        = { valid := true, reason := none, entry_price := E,
            stop_loss := E - 15, target := E + 30, risk := 15,
            reward := 30, rr := 2, atr := 10 }) := by
  constructor
  · intro cfg candles d fl il
    simp only [calculate_entry_stop_target]
    split_ifs <;> intro h <;>
      first
        | exact h.elim
        | exact Bool.noConfusion h
        | exact ⟨not_lt.mp (by assumption), not_le.mp (by assumption)⟩
  · intro E
    have hlast : lastClose (List.replicate 14 (⟨E + 5, E - 5, E⟩ : Candle)) = E := by
      have h := getLast?_replicate_succ (⟨E + 5, E - 5, E⟩ : Candle) 13
      norm_num at h
      simp [lastClose, h]
    simp only [calculate_entry_stop_target, cfgDefault]
    rw [if_neg (by simp)]
    simp only [eq_self_iff_true, if_true]
    rw [atr_replicate, hlast]
    simp only [calculate_break_retest_entry, calculate_stop_loss]
    have hrisk : ¬ (E - (E - 10 * 1.5) ≤ (0 : ℚ)) := by
      rw [show E - (E - 10 * 1.5) = (15 : ℚ) from by ring]
      norm_num
    have hrr : ¬ (|E + (E - (E - 10 * 1.5)) * 2 - E| / (E - (E - 10 * 1.5)) < (2 : ℚ)) := by
      rw [show E + (E - (E - 10 * 1.5)) * 2 - E = (30 : ℚ) from by ring,
        show E - (E - 10 * 1.5) = (15 : ℚ) from by ring,
        abs_of_pos (by norm_num : (0 : ℚ) < 30)]
      norm_num
    rw [if_neg hrisk, if_neg hrr]
    simp only [ExecPlan.mk.injEq]
    refine ⟨by trivial, by trivial, by trivial, by ring, by ring, by ring,
      ?_, ?_, by trivial⟩
    · rw [show E + (E - (E - 10 * 1.5)) * 2 - E = (30 : ℚ) from by ring,
        abs_of_pos (by norm_num : (0 : ℚ) < 30)]
    · rw [show E + (E - (E - 10 * 1.5)) * 2 - E = (30 : ℚ) from by ring,
        show E - (E - 10 * 1.5) = (15 : ℚ) from by ring,
        abs_of_pos (by norm_num : (0 : ℚ) < 30)]
      norm_num

/-- Witness for C7: the default configuration on 14 identical candles
around entry price 100 produces a valid plan; its invariants are the
theorem's first conjunct applied to the plan the second conjunct computes. -/
theorem c7_plan_valid_witness :
    (2 : ℚ) ≤ (calculate_entry_stop_target cfgDefault
        (List.replicate 14 ⟨100 + 5, 100 - 5, 100⟩) Direction.long none none).rr ∧
    0 < (calculate_entry_stop_target cfgDefault
        (List.replicate 14 ⟨100 + 5, 100 - 5, 100⟩) Direction.long none none).risk := by
  have hv : (calculate_entry_stop_target cfgDefault
      (List.replicate 14 ⟨(100 : ℚ) + 5, 100 - 5, 100⟩) Direction.long
        none none).valid = true := by
    rw [c7_plan_valid.2 100]
  have h := c7_plan_valid.1 cfgDefault
    (List.replicate 14 ⟨(100 : ℚ) + 5, 100 - 5, 100⟩) Direction.long none none hv
  simpa [cfgDefault] using h

/- ------------------------------------------------------------------ -/
/-  C8                                                                 -/
/- ------------------------------------------------------------------ -/

/-- Claim C8: when the persisted risk-state file is missing or unreadable,
constructing the risk manager falls back to the fresh zeroed state
(`day_pnl = 0`, `consecutive_losses = 0`, `paused_until = 0`,
`shutdown_until = 0`) instead of raising (`RiskManager.load` is a total
function of the read outcome), and on that fresh state `is_paused` and
`is_shutdown` answer `false` at every time. -/
theorem c8_load_fallback :
    RiskManager.load none = freshRiskState ∧
    RiskManager.load (some none) = freshRiskState ∧
    freshRiskState.day_pnl = 0 ∧
    freshRiskState.consecutive_losses = 0 ∧
    freshRiskState.paused_until = 0 ∧
    freshRiskState.shutdown_until = 0 ∧
    (∀ now : ℕ, RiskState.is_paused now freshRiskState = false ∧
      RiskState.is_shutdown now freshRiskState = false) := by
  refine ⟨rfl, rfl, rfl, rfl, rfl, rfl, fun now => ⟨?_, ?_⟩⟩ <;>
    simp [RiskState.is_paused, RiskState.is_shutdown, freshRiskState]

/- ------------------------------------------------------------------ -/
/-  C9                                                                 -/
/- ------------------------------------------------------------------ -/

/-- Counterexample to C9 as stated: open a position with entry timestamp 0
on a tracker with `max_candles = 1`. The tracker is in its Tracking state
(a position was opened and not closed), so by the claim the next
`on_new_candle` must increment `candles_held` to 1 and, as `1 >= 1`, return
an exit recommendation; instead the source's truthiness test
`if not self.position_entry_time` treats the timestamp `0.0` as "no
position": the call returns `none` and the counter stays 0. -/
theorem c9_counterexample :
    (on_new_candle ⟨101, 99, 100⟩ (on_position_opened Direction.long 100 0
      (PositionTracker.init 1))).1 = none ∧
    (on_new_candle ⟨101, 99, 100⟩ (on_position_opened Direction.long 100 0
      (PositionTracker.init 1))).2.position_entry_candle_count = 0 := by
  constructor <;>
    simp [on_new_candle, optTruthy, on_position_opened, PositionTracker.init]

/-- Claim C9 (amended: the Tracking-state behaviour requires the recorded
entry timestamp — and, for the price-change field, the entry price — to be
nonzero, since the source tests both for Python truthiness): the tracker is
a two-state machine, `NoPosition -> Tracking` on `on_position_opened` and
`Tracking -> NoPosition` on `on_position_closed`, with no other transitions
(`on_new_candle` never changes the position fields); `on_new_candle` while
`NoPosition` is a no-op returning `none`; while Tracking with a nonzero
entry timestamp it increments `candles_held`, returns `none` while
`candles_held < max_candles`, and once `candles_held >= max_candles`
returns an exit recommendation carrying the elapsed count and the
price-change percentage since entry. -/
theorem c9_position_tracker :
    (∀ (t : PositionTracker) (c : Candle), t.position_entry_time = none →
      on_new_candle c t = (none, t)) ∧
    (∀ (t : PositionTracker) (c : Candle),
      ((on_new_candle c t).2.position_entry_time = t.position_entry_time ∧
        (on_new_candle c t).2.position_side = t.position_side) ∧
      ((on_new_candle c t).2.position_entry_price = t.position_entry_price ∧
        (on_new_candle c t).2.max_candles_5m = t.max_candles_5m)) ∧
    (∀ (side : Direction) (p ts : ℚ) (t : PositionTracker),
      (on_position_opened side p ts t).position_entry_time = some ts ∧
      (on_position_opened side p ts t).position_entry_candle_count = 0 ∧
      (on_position_closed t).position_entry_time = none) ∧
    (∀ (t : PositionTracker) (c : Candle) (ts : ℚ),
      t.position_entry_time = some ts → ts ≠ 0 →
      ((on_new_candle c t).2.position_entry_candle_count
          = t.position_entry_candle_count + 1 ∧
        (t.position_entry_candle_count + 1 < t.max_candles_5m →
          (on_new_candle c t).1 = none)) ∧
      (t.max_candles_5m ≤ t.position_entry_candle_count + 1 →
        ∀ p : ℚ, t.position_entry_price = some p → p ≠ 0 →
          (on_new_candle c t).1
            = some { candles_held := t.position_entry_candle_count + 1,
                     price_change_pct := |c.close - p| / p })) := by
  refine ⟨?_, ?_, ?_, ?_⟩
  · intro t c h
    simp [on_new_candle, optTruthy, h]
  · intro t c
    refine ⟨⟨?_, ?_⟩, ?_, ?_⟩ <;> (simp only [on_new_candle]; split_ifs <;> rfl)
  · intro side p ts t
    exact ⟨rfl, rfl, rfl⟩
  · intro t c ts hts hts0
    have htr : optTruthy t.position_entry_time = true := by
      simp [optTruthy, hts, hts0]
    constructor
    · constructor
      · simp only [on_new_candle, htr]
        norm_num
        split_ifs <;> rfl
      · intro hlt
        simp only [on_new_candle, htr]
        norm_num
        rw [if_neg (by omega)]
    · intro hge p hp hp0
      have hpt : optTruthy t.position_entry_price = true := by
        simp [optTruthy, hp, hp0]
      simp only [on_new_candle, htr, hp, hpt]
      norm_num
      rw [if_pos (by omega)]
      simp [optTruthy, hp0]

/-- Witness for C9: a tracker with `max_candles_5m = 2` opened long at price
100 and timestamp 5; the first candle raises the count to 1 and returns no
exit recommendation. -/
theorem c9_position_tracker_witness :
    (on_new_candle ⟨101, 99, 100⟩ (on_position_opened Direction.long 100 5
      (PositionTracker.init 2))).2.position_entry_candle_count
        = (on_position_opened Direction.long 100 5
            (PositionTracker.init 2)).position_entry_candle_count + 1 ∧
    (on_new_candle ⟨101, 99, 100⟩ (on_position_opened Direction.long 100 5
      (PositionTracker.init 2))).1 = none := by
  have h := c9_position_tracker.2.2.2
    (on_position_opened Direction.long 100 5 (PositionTracker.init 2))
    ⟨101, 99, 100⟩ 5 rfl (by norm_num)
  exact ⟨h.1.1, h.1.2 (by simp [on_position_opened, PositionTracker.init])⟩

/- ------------------------------------------------------------------ -/
/-  C10                                                                -/
/- ------------------------------------------------------------------ -/

/-- Claim C10: constructing the execution planner with an `entry_mode`
outside break_retest / pullback / limit_midpoint raises ValueError
(modelled: `TradeExecution.init` returns `none`), while construction with
any of those three modes succeeds and stores the configuration. -/
theorem c10_entry_mode_validation :
    (∀ (m : String) (mult mr : ℚ) (tsc ap : ℕ), m ∉ valid_entry_modes →
      TradeExecution.init m mult mr tsc ap = none) ∧
    (∀ (mult mr : ℚ) (tsc ap : ℕ),
      TradeExecution.init ("break_retest") mult mr tsc ap
        = some { entry_mode := "break_retest", stop_atr_multiplier := mult,
                 min_rr := mr, time_stop_candles := tsc, atr_period := ap } ∧
      TradeExecution.init ("pullback") mult mr tsc ap
        = some { entry_mode := "pullback", stop_atr_multiplier := mult,
                 min_rr := mr, time_stop_candles := tsc, atr_period := ap } ∧
      TradeExecution.init ("limit_midpoint") mult mr tsc ap
        = some { entry_mode := "limit_midpoint", stop_atr_multiplier := mult,
                 min_rr := mr, time_stop_candles := tsc, atr_period := ap }) := by
  constructor
  · intro m mult mr tsc ap hm
    simp [TradeExecution.init, hm]
  · intro mult mr tsc ap
    refine ⟨?_, ?_, ?_⟩ <;> simp [TradeExecution.init, valid_entry_modes]

/-- Witness for C10: the entry mode "fractal" is rejected. -/
theorem c10_entry_mode_validation_witness :
    TradeExecution.init ("fractal") 1.5 2 8 14 = none :=
  c10_entry_mode_validation.1 ("fractal") 1.5 2 8 14 (by simp [valid_entry_modes])
